import Mathlib

/-!
Verification development for the RAG-pipeline repository.

Shallow embedding of the repository's core components:
- `src/core/document.py` (the `Document` dataclass),
- `src/processor/document_processor.py` (`DocumentProcessor.add_metadata`),
- `src/chunker/text_chunker.py` (`TextChunker`),
- `src/database/chroma_connector/connector.py` (`ChromaConnector`).

Python dictionaries over string keys are embedded as association lists with
in-place-update semantics (`dset` keeps the position of an existing key, as
CPython dicts keep insertion order on update). Python strings are embedded
as Lean `String`s, with the character-level operations (`split`, `join`,
`find`, `len`) implemented over `String.data` so that everything evaluates
inside the kernel.

The external collaborators (the langchain `CharacterTextSplitter` and the
chromadb client) are not part of the repository; their behavior is modelled
from the specification (sections 4.2, 4.3 and 6), and each such definition
carries a doc comment saying so.
-/

namespace RAGPipeline

/-! ## Python dict embedding -/

/-- Metadata values stored in a Python `Dict[str, Any]`: the repository only
ever stores ints and strings in document metadata. -/
inductive MVal where
  | int : Int → MVal
  | str : String → MVal
deriving DecidableEq, Repr

/-- A Python dict with string keys, as an association list with unique keys
maintained by `dset`. -/
abbrev Metadata := List (String × MVal)

/-- Python dict lookup: first binding of the key. -/
def dlookup : Metadata → String → Option MVal
  | [], _ => none
  | (k, v) :: rest, key => if k = key then some v else dlookup rest key

/-- Python dict item assignment `m[k] = v`: replaces the value of an existing
key in place (keeping its position) or appends a new binding. -/
def dset : Metadata → String → MVal → Metadata
  | [], key, v => [(key, v)]
  | (k, w) :: rest, key, v =>
      if k = key then (key, v) :: rest else (k, w) :: dset rest key v

/-- Python `m.update(upd)`: assign every binding of `upd` into `m`, in order. -/
def dictUpdate (m : Metadata) (upd : Metadata) : Metadata :=
  upd.foldl (fun acc kv => dset acc kv.1 kv.2) m

/-! ## Character-level string operations

The Python string operations used by the chunker (`str.split`, `str.join`,
`str.find`, `len`) are implemented over `String.data` (lists of characters;
Python indexes strings by code point, as `List Char` does). -/

/-- Helper for `pySplit`: scan the character list, cutting at each occurrence
of the (non-empty) separator.  The accumulator `cur` holds the current piece
reversed.  The recursion is driven by a fuel argument so that it is
structural (and thus reduces definitionally): every step consumes at least
one character, so fuel equal to the input length is always enough and the
zero-fuel fallback is never reached. -/
def splitCharsAux (sep : List Char) : Nat → List Char → List Char →
    List (List Char)
  | 0, l, cur => [cur.reverse ++ l]
  | _ + 1, [], cur => [cur.reverse]
  | fuel + 1, c :: rest, cur =>
      if sep.isPrefixOf (c :: rest) ∧ sep ≠ [] then
        cur.reverse :: splitCharsAux sep fuel (List.drop (sep.length - 1) rest) []
      else
        splitCharsAux sep fuel rest (c :: cur)

/-- Python `s.split(sep)` for a non-empty separator (for an empty separator
Python raises; the chunker never passes one — the default is two newlines). -/
def pySplit (s sep : String) : List String :=
  (splitCharsAux sep.data s.data.length s.data []).map (fun cs => String.mk cs)

/-- Helper for `pyJoin`: interleave the separator between the pieces. -/
def joinCharsAux (sep : List Char) : List (List Char) → List Char
  | [] => []
  | [x] => x
  | x :: y :: rest => x ++ sep ++ joinCharsAux sep (y :: rest)

/-- Python `sep.join(pieces)`. -/
def pyJoin (sep : String) (pieces : List String) : String :=
  String.mk (joinCharsAux sep.data (pieces.map String.data))

/-- Python `len(s)` (number of code points), as an `Int` so that it compares
directly against the configured `chunk_size`. -/
def pyLen (s : String) : Int := (s.data.length : Int)

/-- Helper for `pyFind`: first index at which `needle` occurs in `hay`. -/
def findSubAux (needle : List Char) : List Char → Nat → Option Nat
  | [], i => if needle = [] then some i else none
  | c :: rest, i =>
      if needle.isPrefixOf (c :: rest) then some i
      else findSubAux needle rest (i + 1)

/-- Python `hay.find(needle)`: index of the first occurrence, `-1` if none. -/
def pyFind (hay needle : String) : Int :=
  match findSubAux needle.data hay.data 0 with
  | some i => (i : Int)
  | none => -1

/-! ## Document (`src/core/document.py`) -/

/-- The `Document` dataclass: text content, metadata mapping, optional id. -/
structure Document where
  content : String
  metadata : Metadata
  doc_id : Option String
deriving DecidableEq, Repr

/-! ## DocumentProcessor (`src/processor/document_processor.py`) -/

namespace DocumentProcessor

/-- Embedding of `DocumentProcessor.add_metadata` (document_processor.py
lines 63-66).  The body is `doc.metadata.update(additional_metadata);
return doc`: it mutates the metadata mapping of the document it was passed
and returns that same object.  The embedding returns the pair (post-call
state of the caller's document, returned document); in the code these are
one and the same object, so both components are equal.  The passed
`additional_metadata` mapping is only read, never written. -/
def add_metadata (doc : Document) (additional_metadata : Metadata) :
    Document × Document :=
  let updated : Document :=
    ⟨doc.content, dictUpdate doc.metadata additional_metadata, doc.doc_id⟩
  (updated, updated)

end DocumentProcessor

/-! ## CharacterTextSplitter (external collaborator)

Modelled from the spec: the langchain `CharacterTextSplitter` that
`TextChunker` wraps is not part of this repository.  Its configuration
fields, constructor validation and `split_text` algorithm are taken from
spec section 4.2 (configuration, error conditions, and algorithm steps 1-5,
with step 2's cumulative length read as the sum of segment lengths so that
the spec's own scenario in section 8 holds).  The repository's per-call
override code assigns `chunk_size` / `chunk_overlap` directly on this
shared object, so the fields are plain mutable configuration state. -/

structure CharacterTextSplitter where
  separator : String
  chunk_size : Int
  chunk_overlap : Int
deriving DecidableEq, Repr

/-- Configuration error raised by the splitter constructor. -/
inductive ChunkErr where
  | invalidConfiguration
deriving DecidableEq, Repr

/-- Modelled from the spec: the splitter constructor fails with
`InvalidConfiguration` when `chunk_overlap >= chunk_size` or
`chunk_size <= 0` (spec section 4.2, error conditions). -/
def CharacterTextSplitter.make (separator : String)
    (chunk_size chunk_overlap : Int) : Except ChunkErr CharacterTextSplitter :=
  if chunk_overlap ≥ chunk_size ∨ chunk_size ≤ 0 then
    Except.error ChunkErr.invalidConfiguration
  else
    Except.ok ⟨separator, chunk_size, chunk_overlap⟩

/-- Modelled from the spec (section 4.2, step 3): after closing a chunk,
drop segments from the front of the current buffer until the remaining
total length is at most `chunk_overlap`; what remains is carried into the
next chunk as overlap.  Returns the kept segments and their total length. -/
def popOverlap (overlap : Int) : List String → Int → List String × Int
  | [], total => ([], total)
  | s :: rest, total =>
      if total > overlap then popOverlap overlap rest (total - pyLen s)
      else (s :: rest, total)

/-- Modelled from the spec (section 4.2, steps 2-5): greedily accumulate
segments into the current chunk while the cumulative segment length stays
at most `chunk_size`; when adding the next segment would exceed it, close
the current chunk (joined by the separator) and carry back overlap
segments.  A single segment longer than `chunk_size` becomes its own chunk
unsplit (step 4). -/
def mergeSegs (size overlap : Int) (sep : String) :
    List String → List String → Int → List String → List String
  | [], current, _, acc =>
      if current.isEmpty then acc.reverse
      else acc.reverse ++ [pyJoin sep current]
  | s :: rest, current, total, acc =>
      if total + pyLen s > size ∧ current ≠ [] then
        let chunk := pyJoin sep current
        let kept := popOverlap overlap current total
        mergeSegs size overlap sep rest (kept.1 ++ [s]) (kept.2 + pyLen s)
          (chunk :: acc)
      else
        mergeSegs size overlap sep rest (current ++ [s]) (total + pyLen s) acc

/-- Modelled from the spec (section 4.2, steps 1-5): partition the text on
the separator, drop empty segments, then merge greedily. -/
def CharacterTextSplitter.split_text (sp : CharacterTextSplitter)
    (text : String) : List String :=
  let segs := (pySplit text sp.separator).filter (fun s => s ≠ "")
  mergeSegs sp.chunk_size sp.chunk_overlap sp.separator segs [] 0 []

/-! ## TextChunker (`src/chunker/text_chunker.py`) -/

/-- The `TextChunker` class: its instance state is the wrapped (shared,
mutable) splitter plus the `add_start_index` flag (text_chunker.py
lines 29-35). -/
structure TextChunker where
  text_splitter : CharacterTextSplitter
  add_start_index : Bool
deriving DecidableEq, Repr

/-- `TextChunker.__init__` (text_chunker.py lines 11-39): builds the wrapped
splitter (whose constructor validates the configuration) and stores the
flag. -/
def TextChunker.make (chunk_size chunk_overlap : Int) (separator : String)
    (add_start_index : Bool) : Except ChunkErr TextChunker :=
  match CharacterTextSplitter.make separator chunk_size chunk_overlap with
  | Except.ok sp => Except.ok ⟨sp, add_start_index⟩
  | Except.error e => Except.error e

/-- The chunker built with all default parameters
(`chunk_size=256, chunk_overlap=20, separator` two newlines,
`add_start_index=True`). -/
def defaultChunker : TextChunker := ⟨⟨"\n\n", 256, 20⟩, true⟩

/-- Metadata of one chunk (text_chunker.py lines 71-82): shallow copy of the
parent's mapping, then `chunk_index` and `total_chunks` are assigned, then
`chunk_start_index` when the flag is set. -/
def chunkMetadata (parent : Metadata) (i n : Nat) (addStart : Bool)
    (startIdx : Int) : Metadata :=
  let m := dset (dset parent "chunk_index" (MVal.int i)) "total_chunks" (MVal.int n)
  if addStart then dset m "chunk_start_index" (MVal.int startIdx) else m

/-- Derived chunk id (text_chunker.py line 88): the Python conditional
expression is truthy, so both a missing parent id and an empty-string
parent id yield `None`. -/
def chunkDocId (pid : Option String) (i : Nat) : Option String :=
  match pid with
  | some d => if d = "" then none else some (d ++ "_chunk_" ++ toString i)
  | none => none

/-- The `for i, chunk_text in enumerate(chunk_texts)` loop of `create_chunks`
(text_chunker.py lines 69-90): one chunk `Document` per text, indexed from
`i`. -/
def buildChunks (parent : Document) (n : Nat) (addStart : Bool) :
    List String → Nat → List Document
  | [], _ => []
  | t :: ts, i =>
      ⟨t, chunkMetadata parent.metadata i n addStart (pyFind parent.content t),
        chunkDocId parent.doc_id i⟩ :: buildChunks parent n addStart ts (i + 1)

/-- Embedding of `TextChunker.create_chunks` (text_chunker.py lines 41-97).
Lines 60-63 assign any per-call override directly onto the shared
`self.text_splitter` object, so the method both uses the overridden values
for this call and leaves them on the instance; the embedding therefore
returns the updated chunker state together with the chunk list.  The body's
only raise paths re-raise exceptions of the splitter, and the modelled
splitter is total, so the embedding is total. -/
def TextChunker.create_chunks (self : TextChunker) (document : Document)
    (chunk_size chunk_overlap : Option Int) : TextChunker × List Document :=
  let sp0 := self.text_splitter
  let sp1 : CharacterTextSplitter :=
    match chunk_size with
    | some cs => ⟨sp0.separator, cs, sp0.chunk_overlap⟩
    | none => sp0
  let sp2 : CharacterTextSplitter :=
    match chunk_overlap with
    | some co => ⟨sp1.separator, sp1.chunk_size, co⟩
    | none => sp1
  let chunk_texts := sp2.split_text document.content
  (⟨sp2, self.add_start_index⟩,
    buildChunks document chunk_texts.length self.add_start_index chunk_texts 0)

/-! ## ChromaConnector (`src/database/chroma_connector/connector.py`)

The connector wraps the external chromadb client.  The client itself is
modelled from the spec (sections 4.3, 4.4 and 6): a persistent store of
named collections of records; `list_collections` returns the sequence of
collection names; creating an existing collection or deleting a missing one
is an engine error.  The directory-backed persistence layout is
engine-defined and out of scope (spec section 6), so `connect` takes the
engine state loaded from the persist directory as a parameter. -/

/-- Errors raised by connector operations, mirroring the Python exceptions:
`ConnectionError` for calls before connect, `AttributeError` for access to an
undefined attribute, and engine-raised failures. -/
inductive PyErr where
  | notConnected
  | attributeError : String → PyErr
  | engineFailure : String → PyErr
deriving DecidableEq, Repr

/-- One stored record of a collection: generated id, embedding vector
(floats embedded as rationals; no arithmetic on them is ever reached),
chunk text and metadata. -/
structure ChromaRecord where
  rec_id : String
  embedding : List Rat
  text : String
  meta : Metadata
deriving DecidableEq

/-- One named collection of the engine. -/
structure ChromaCollection where
  name : String
  records : List ChromaRecord
deriving DecidableEq

/-- Modelled from the spec: the chromadb client state, a list of named
collections. -/
structure ChromaClient where
  collections : List ChromaCollection
deriving DecidableEq

/-- Modelled from the spec (section 4.3): `client.list_collections()`
returns the sequence of collection names. -/
def ChromaClient.list_collections (c : ChromaClient) : List String :=
  c.collections.map ChromaCollection.name

/-- Modelled from the spec: `client.create_collection(name)` creates an
empty collection, raising an engine error if one of that name exists. -/
def ChromaClient.create_collection (c : ChromaClient) (name : String) :
    Except PyErr ChromaClient :=
  if name ∈ c.list_collections then
    Except.error (PyErr.engineFailure "collection already exists")
  else
    Except.ok ⟨c.collections ++ [⟨name, []⟩]⟩

/-- Modelled from the spec (section 8 scenario: dropping a missing
collection fails): `client.delete_collection(name)` removes the collection,
raising an engine error if none of that name exists. -/
def ChromaClient.delete_collection (c : ChromaClient) (name : String) :
    Except PyErr ChromaClient :=
  if name ∈ c.list_collections then
    Except.ok ⟨c.collections.filter (fun col => col.name ≠ name)⟩
  else
    Except.error (PyErr.engineFailure "collection does not exist")

/-- The `ChromaConnector` instance state (connector.py lines 14-17):
`persist_directory`, the optional client handle, and the cached collection
handles (embedded by their names; the handle values live in the engine
state). -/
structure ChromaConnector where
  persist_directory : String
  client : Option ChromaClient
  collections : List String
deriving DecidableEq

/-- The attribute names defined on a `ChromaConnector` instance: the three
instance attributes assigned in `__init__` plus the methods of the class
body.  Note that the cache helper is named `get_collection` and that no
attribute named with a leading underscore variant of it, and no
`_collection_dimensions` attribute, is ever defined or assigned anywhere in
the class. -/
def chromaConnectorAttrs : List String :=
  ["persist_directory", "client", "collections",
   "connect", "disconnect", "create_collection", "drop_collection",
   "list_collections", "get_collection", "add_to_collection",
   "search_similar"]

theorem get_collection_helper_attr_missing :
    "_get_collection" ∉ chromaConnectorAttrs := by decide

theorem collection_dimensions_attr_missing :
    "_collection_dimensions" ∉ chromaConnectorAttrs := by decide

/-- `ChromaConnector.__init__` (connector.py lines 14-17). -/
def ChromaConnector.make (persist_directory : String) : ChromaConnector :=
  ⟨persist_directory, none, []⟩

/-- `ChromaConnector.connect` (connector.py lines 19-31): installs the
client handle.  The engine state loaded from `persist_directory` is
supplied as a parameter (its on-disk layout is out of scope, spec
section 6). -/
def ChromaConnector.connect (s : ChromaConnector) (engine : ChromaClient) :
    ChromaConnector :=
  ⟨s.persist_directory, some engine, s.collections⟩

/-- `ChromaConnector.disconnect` (connector.py lines 33-36): drops the
client handle and clears the cached collection handles. -/
def ChromaConnector.disconnect (s : ChromaConnector) : ChromaConnector :=
  ⟨s.persist_directory, none, []⟩

/-- `ChromaConnector.create_collection` (connector.py lines 38-53): fails
with `ConnectionError` when not connected; returns silently when the name
is already among the engine's collection names; otherwise creates the
collection and caches its handle. -/
def ChromaConnector.create_collection (s : ChromaConnector) (name : String) :
    ChromaConnector × Except PyErr Unit :=
  match s.client with
  | none => (s, Except.error PyErr.notConnected)
  | some client =>
      if name ∈ client.list_collections then (s, Except.ok ())
      else
        match client.create_collection name with
        | Except.ok client2 =>
            (⟨s.persist_directory, some client2, s.collections ++ [name]⟩,
              Except.ok ())
        | Except.error e => (s, Except.error e)

/-- `ChromaConnector.drop_collection` (connector.py lines 55-65): fails with
`ConnectionError` when not connected; deletes the collection on the engine
(re-raising the engine error for a missing name, in which case the cache
pop on line 61 is never executed) and evicts the cached handle. -/
def ChromaConnector.drop_collection (s : ChromaConnector) (name : String) :
    ChromaConnector × Except PyErr Unit :=
  match s.client with
  | none => (s, Except.error PyErr.notConnected)
  | some client =>
      match client.delete_collection name with
      | Except.ok client2 =>
          (⟨s.persist_directory, some client2,
              s.collections.filter (fun n => n ≠ name)⟩, Except.ok ())
      | Except.error e => (s, Except.error e)

/-- `ChromaConnector.list_collections` (connector.py lines 67-77). -/
def ChromaConnector.list_collections (s : ChromaConnector) :
    ChromaConnector × Except PyErr (List String) :=
  match s.client with
  | none => (s, Except.error PyErr.notConnected)
  | some client => (s, Except.ok client.list_collections)

/-- Embedding of `ChromaConnector.add_to_collection` (connector.py
lines 87-117).  After the connection check, the first statement of the
`try` body (line 99) evaluates `self._get_collection`, an attribute the
class never defines — the cache helper is named `get_collection`
(line 79) — so Python raises `AttributeError` before any id is generated
or any engine call is made; the `except` block logs and re-raises it
(lines 115-117).  The remainder of the body is unreachable, so every call
fails and the connector and engine state are left unchanged. -/
def ChromaConnector.add_to_collection (s : ChromaConnector)
    (collection_name : String) (chunks : List String)
    (embeddings : List (List Rat)) (metadata : List Metadata) :
    ChromaConnector × Except PyErr (List String) :=
  match s.client with
  | none => (s, Except.error PyErr.notConnected)
  | some _ => (s, Except.error (PyErr.attributeError "_get_collection"))

/-- Embedding of `ChromaConnector.search_similar` (connector.py
lines 119-159).  After the connection check, line 130 evaluates
`self._get_collection`, an attribute the class never defines, so Python
raises `AttributeError` there; even if the helper name were corrected,
line 131 reads `self._collection_dimensions`, which is never assigned
anywhere in the class either.  The `except` block logs and re-raises, so
every call fails — the dimension comparison on line 134 and the query are
unreachable — and the state is left unchanged. -/
def ChromaConnector.search_similar (s : ChromaConnector)
    (collection_name : String) (query_embedding : List Rat) (k : Nat) :
    ChromaConnector × Except PyErr (List (String × Rat × Metadata)) :=
  match s.client with
  | none => (s, Except.error PyErr.notConnected)
  | some _ => (s, Except.error (PyErr.attributeError "_get_collection"))

/-- Total number of records stored in a named collection of a connector
(0 when the engine has no such collection or the store is disconnected). -/
def ChromaConnector.recordCount (s : ChromaConnector) (name : String) : Nat :=
  match s.client with
  | none => 0
  | some client =>
      ((client.collections.filter (fun col => col.name = name)).map
        (fun col => col.records.length)).sum

/-! ## Dictionary lemmas -/

theorem dlookup_dset_self (m : Metadata) (k : String) (v : MVal) :
    dlookup (dset m k v) k = some v := by
  induction m with
  | nil => simp [dset, dlookup]
  | cons kv rest ih =>
      obtain ⟨a, b⟩ := kv
      by_cases h : a = k
      · simp [dset, dlookup, h]
      · simp [dset, dlookup, h, ih]

theorem dlookup_dset_ne (m : Metadata) (k kq : String) (v : MVal)
    (h : k ≠ kq) : dlookup (dset m k v) kq = dlookup m kq := by
  induction m with
  | nil => simp [dset, dlookup, h]
  | cons kv rest ih =>
      obtain ⟨a, b⟩ := kv
      by_cases ha : a = k
      · subst ha
        simp [dset, dlookup, h]
      · simp [dset, dlookup, ha, ih]

/-! ## Chunk metadata lemmas -/

theorem chunkMetadata_chunk_index (p : Metadata) (i n : Nat) (a : Bool)
    (st : Int) :
    dlookup (chunkMetadata p i n a st) "chunk_index" = some (MVal.int i) := by
  have h1 : dlookup
      (dset (dset p "chunk_index" (MVal.int i)) "total_chunks" (MVal.int n))
      "chunk_index" = some (MVal.int i) := by
    rw [dlookup_dset_ne _ _ _ _ (by decide), dlookup_dset_self]
  unfold chunkMetadata
  cases a
  · simpa using h1
  · simpa [dlookup_dset_ne _ _ _ _ (by decide : ("chunk_start_index" : String) ≠ "chunk_index")]
      using h1

theorem chunkMetadata_total_chunks (p : Metadata) (i n : Nat) (a : Bool)
    (st : Int) :
    dlookup (chunkMetadata p i n a st) "total_chunks" = some (MVal.int n) := by
  have h1 : dlookup
      (dset (dset p "chunk_index" (MVal.int i)) "total_chunks" (MVal.int n))
      "total_chunks" = some (MVal.int n) := dlookup_dset_self _ _ _
  unfold chunkMetadata
  cases a
  · simpa using h1
  · simpa [dlookup_dset_ne _ _ _ _ (by decide : ("chunk_start_index" : String) ≠ "total_chunks")]
      using h1

theorem chunkMetadata_other_key (p : Metadata) (i n : Nat) (a : Bool)
    (st : Int) (k : String) (h1 : k ≠ "chunk_index") (h2 : k ≠ "total_chunks")
    (h3 : k ≠ "chunk_start_index") :
    dlookup (chunkMetadata p i n a st) k = dlookup p k := by
  have hbase : dlookup
      (dset (dset p "chunk_index" (MVal.int i)) "total_chunks" (MVal.int n)) k
      = dlookup p k := by
    rw [dlookup_dset_ne _ _ _ _ (Ne.symm h2), dlookup_dset_ne _ _ _ _ (Ne.symm h1)]
  unfold chunkMetadata
  cases a
  · simpa using hbase
  · simpa [dlookup_dset_ne _ _ _ _ (Ne.symm h3)] using hbase

/-! ## buildChunks lemmas -/

theorem buildChunks_length (p : Document) (n : Nat) (a : Bool) :
    ∀ (ts : List String) (i : Nat), (buildChunks p n a ts i).length = ts.length
  | [], _ => rfl
  | _ :: ts, i => by
      simp [buildChunks, buildChunks_length p n a ts (i + 1)]

theorem buildChunks_chunk_index (p : Document) (n : Nat) (a : Bool) :
    ∀ (ts : List String) (i : Nat),
      (buildChunks p n a ts i).map (fun d => dlookup d.metadata "chunk_index")
        = (List.range' i ts.length).map (fun j : Nat => some (MVal.int (j : Int)))
  | [], _ => rfl
  | t :: ts, i => by
      simp only [buildChunks, List.map_cons, List.length_cons, List.range',
        chunkMetadata_chunk_index, buildChunks_chunk_index p n a ts (i + 1)]

theorem buildChunks_mem_total_chunks (p : Document) (n : Nat) (a : Bool) :
    ∀ (ts : List String) (i : Nat), ∀ d ∈ buildChunks p n a ts i,
      dlookup d.metadata "total_chunks" = some (MVal.int n)
  | [], _ => by intro d hd; simp [buildChunks] at hd
  | t :: ts, i => by
      intro d hd
      simp only [buildChunks, List.mem_cons] at hd
      rcases hd with hd | hd
      · subst hd
        exact chunkMetadata_total_chunks _ _ _ _ _
      · exact buildChunks_mem_total_chunks p n a ts (i + 1) d hd

theorem buildChunks_mem_parent_key (p : Document) (n : Nat) (a : Bool) :
    ∀ (ts : List String) (i : Nat), ∀ d ∈ buildChunks p n a ts i,
      ∀ k : String, k ≠ "chunk_index" → k ≠ "total_chunks" →
        k ≠ "chunk_start_index" →
        dlookup d.metadata k = dlookup p.metadata k
  | [], _ => by intro d hd; simp [buildChunks] at hd
  | t :: ts, i => by
      intro d hd k h1 h2 h3
      simp only [buildChunks, List.mem_cons] at hd
      rcases hd with hd | hd
      · subst hd
        exact chunkMetadata_other_key _ _ _ _ _ _ h1 h2 h3
      · exact buildChunks_mem_parent_key p n a ts (i + 1) d hd k h1 h2 h3

/-- Names of the collections visible through a connector (empty when
disconnected). -/
def ChromaConnector.collectionNames (s : ChromaConnector) : List String :=
  match s.client with
  | none => []
  | some c => c.list_collections

/-- Shared contract of the chunk-building loop: the chunk indexes are
exactly 0, 1, ..., length-1 in order, every chunk's `total_chunks` is the
length of the produced list, and every parent metadata key other than the
three injected ones looks up unchanged. -/
theorem buildChunks_contract (p : Document) (a : Bool) (ts : List String) :
    ((buildChunks p ts.length a ts 0).map
        (fun cd => dlookup cd.metadata "chunk_index")
      = (List.range (buildChunks p ts.length a ts 0).length).map
          (fun j : Nat => some (MVal.int (j : Int))))
    ∧ (∀ cd ∈ buildChunks p ts.length a ts 0,
        dlookup cd.metadata "total_chunks"
          = some (MVal.int ((buildChunks p ts.length a ts 0).length : Int)))
    ∧ (∀ cd ∈ buildChunks p ts.length a ts 0, ∀ k : String,
        k ≠ "chunk_index" → k ≠ "total_chunks" → k ≠ "chunk_start_index" →
        dlookup cd.metadata k = dlookup p.metadata k) := by
  have hlen := buildChunks_length p ts.length a ts 0
  refine ⟨?_, ?_, ?_⟩
  · rw [hlen, List.range_eq_range']
    exact buildChunks_chunk_index p ts.length a ts 0
  · intro cd hcd
    rw [hlen]
    exact buildChunks_mem_total_chunks p ts.length a ts 0 cd hcd
  · intro cd hcd
    exact buildChunks_mem_parent_key p ts.length a ts 0 cd hcd

/-! ## Claim theorems -/

/-- C1 (code bug): the per-call override is persisted on the shared
splitter.  Concretely, after one call with overrides `chunk_size=4`,
`chunk_overlap=0`, the chunker instance carries `chunk_size = 4` instead of
its default 256, and a later call with no overrides splits
"AAAA\n\nBBBB" into two chunks, while a chunker on which the overridden
call never happened returns it as one chunk. -/
theorem create_chunks_override_persists :
    ((defaultChunker.create_chunks ⟨"AAAA\n\nBBBB", [], none⟩
        (some 4) (some 0)).1.text_splitter.chunk_size = 4)
    ∧ (((defaultChunker.create_chunks ⟨"AAAA\n\nBBBB", [], none⟩
          (some 4) (some 0)).1.create_chunks ⟨"AAAA\n\nBBBB", [], none⟩
          none none).2.map Document.content = ["AAAA", "BBBB"])
    ∧ ((defaultChunker.create_chunks ⟨"AAAA\n\nBBBB", [], none⟩
          none none).2.map Document.content = ["AAAA\n\nBBBB"]) :=
  ⟨rfl, rfl, rfl⟩

/-- C4 (amended): for every chunker configuration, every document and every
per-call override, the chunk list returned by `create_chunks` carries
`chunk_index` values exactly 0, 1, ..., total-1 in order, `total_chunks`
equal to the length of the returned list in every chunk, and every
key-value pair of the parent's metadata whose key is not one of the three
chunker-injected keys is present unchanged in each chunk's metadata. -/
theorem create_chunks_metadata_contract (ch : TextChunker) (d : Document)
    (ocs oco : Option Int) :
    (((ch.create_chunks d ocs oco).2).map
        (fun cd => dlookup cd.metadata "chunk_index")
      = (List.range ((ch.create_chunks d ocs oco).2).length).map
          (fun j : Nat => some (MVal.int (j : Int))))
    ∧ (∀ cd ∈ (ch.create_chunks d ocs oco).2,
        dlookup cd.metadata "total_chunks"
          = some (MVal.int (((ch.create_chunks d ocs oco).2).length : Int)))
    ∧ (∀ cd ∈ (ch.create_chunks d ocs oco).2, ∀ k : String,
        k ≠ "chunk_index" → k ≠ "total_chunks" → k ≠ "chunk_start_index" →
        dlookup cd.metadata k = dlookup d.metadata k) := by
  cases ocs <;> cases oco <;> exact buildChunks_contract d ch.add_start_index _

/-- C4 (counterexample): when the parent document's metadata already binds
the key "chunk_index" (here to 99), that key-value pair of the parent is
not present in the chunk's metadata — the chunker overwrites it with the
chunk's own index 0 — refuting the unrestricted "every key-value pair of
the parent document's metadata is present" reading at this input. -/
theorem create_chunks_parent_pair_overwritten :
    (("chunk_index", MVal.int 99) ∈
      ([("chunk_index", MVal.int 99)] : Metadata))
    ∧ ((defaultChunker.create_chunks
          ⟨"AB", [("chunk_index", MVal.int 99)], none⟩ none none).2
        = [⟨"AB", [("chunk_index", MVal.int 0), ("total_chunks", MVal.int 1),
              ("chunk_start_index", MVal.int 0)], none⟩])
    ∧ (("chunk_index", MVal.int 99) ∉
        ([("chunk_index", MVal.int 0), ("total_chunks", MVal.int 1),
          ("chunk_start_index", MVal.int 0)] : Metadata)) := by
  refine ⟨by decide, by decide, by decide⟩

/-- C5 (code bug): the modelled splitter constructor rejects
`chunk_overlap >= chunk_size` (and `chunk_size <= 0`) with
`InvalidConfiguration`, and so does `TextChunker` construction — but the
per-call override path of `create_chunks` performs no validation at all:
with overrides `chunk_size=5`, `chunk_overlap=10` (overlap exceeding size)
the call silently proceeds and returns chunks instead of failing fast. -/
theorem invalid_override_not_rejected :
    (CharacterTextSplitter.make "\n\n" 5 10
      = Except.error ChunkErr.invalidConfiguration)
    ∧ (TextChunker.make 5 10 "\n\n" true
      = Except.error ChunkErr.invalidConfiguration)
    ∧ ((defaultChunker.create_chunks ⟨"AAAA\n\nBBBB", [], none⟩
          (some 5) (some 10)).2.map Document.content
        = ["AAAA", "AAAA\n\nBBBB"]) :=
  ⟨rfl, rfl, rfl⟩

/-- C9 (counterexample): `add_metadata` mutates the caller's document in
place — after the call, the document the caller passed no longer equals its
pre-call value at this concrete input. -/
theorem add_metadata_mutates_caller :
    (DocumentProcessor.add_metadata ⟨"x", [("a", MVal.int 1)], none⟩
        [("b", MVal.int 2)]).1
      ≠ ⟨"x", [("a", MVal.int 1)], none⟩ := by decide

/-- C9 (amended): `add_metadata` merges the given mapping into the passed
document's metadata in place (Python dict-update semantics) and returns
that very document — the returned document and the caller's post-call
document are one and the same — while the document's content and id are
never touched and the caller's additional mapping is only read. -/
theorem add_metadata_in_place_merge (d : Document) (m : Metadata) :
    ((DocumentProcessor.add_metadata d m).2
      = (DocumentProcessor.add_metadata d m).1)
    ∧ ((DocumentProcessor.add_metadata d m).1.content = d.content)
    ∧ ((DocumentProcessor.add_metadata d m).1.doc_id = d.doc_id)
    ∧ ((DocumentProcessor.add_metadata d m).1.metadata
      = dictUpdate d.metadata m) :=
  ⟨rfl, rfl, rfl, rfl⟩

/-- C10: the spec scenario — content "AAAA\n\nBBBB\n\nCCCC", separator two
newlines, `chunk_size=9`, `chunk_overlap=0` — yields exactly the chunks
"AAAA\n\nBBBB" and "CCCC", with chunk_index 0 and 1 and total_chunks 2 in
both chunks' metadata. -/
theorem scenario_two_chunks :
    ((⟨⟨"\n\n", 9, 0⟩, true⟩ : TextChunker).create_chunks
        ⟨"AAAA\n\nBBBB\n\nCCCC", [], none⟩ none none).2
      = [⟨"AAAA\n\nBBBB",
            [("chunk_index", MVal.int 0), ("total_chunks", MVal.int 2),
             ("chunk_start_index", MVal.int 0)], none⟩,
         ⟨"CCCC",
            [("chunk_index", MVal.int 1), ("total_chunks", MVal.int 2),
             ("chunk_start_index", MVal.int 12)], none⟩] := by
  rfl

/-- C2 (code bug): on every connected store, every `add_to_collection` call
fails with `AttributeError` — line 99 evaluates the undefined attribute
`_get_collection` (the helper is named `get_collection`) — leaving the
store unchanged; no ids are ever generated, so the add/search round trip
is impossible. -/
theorem add_to_collection_always_raises (s : ChromaConnector)
    (c : ChromaClient) (hc : s.client = some c) (name : String)
    (chunks : List String) (embeddings : List (List Rat))
    (metadata : List Metadata) :
    s.add_to_collection name chunks embeddings metadata
      = (s, Except.error (PyErr.attributeError "_get_collection")) := by
  unfold ChromaConnector.add_to_collection
  rw [hc]

/-- Witness for C2 at a concrete connected store. -/
theorem add_to_collection_always_raises_witness :
    ChromaConnector.add_to_collection ⟨"db", some ⟨[]⟩, []⟩ "docs" ["t"]
        [[(1 : Rat)]] [[]]
      = (⟨"db", some ⟨[]⟩, []⟩,
          Except.error (PyErr.attributeError "_get_collection")) :=
  add_to_collection_always_raises ⟨"db", some ⟨[]⟩, []⟩ ⟨[]⟩ rfl "docs"
    ["t"] [[(1 : Rat)]] [[]]

/-- C3 (code bug): on every connected store, every `search_similar` call
fails with `AttributeError` regardless of the query width — line 130
evaluates the undefined attribute `_get_collection`, and the dimension
record `_collection_dimensions` read on line 131 is itself never assigned
anywhere — so no first-write dimension is ever recorded, a wrong-width
query does not fail with a dimension error, and a matching-width query
fails all the same. -/
theorem search_similar_always_raises (s : ChromaConnector)
    (c : ChromaClient) (hc : s.client = some c) (name : String)
    (q : List Rat) (k : Nat) :
    s.search_similar name q k
      = (s, Except.error (PyErr.attributeError "_get_collection")) := by
  unfold ChromaConnector.search_similar
  rw [hc]

/-- Witness for C3 at a concrete connected store holding one collection. -/
theorem search_similar_always_raises_witness :
    ChromaConnector.search_similar
        ⟨"db", some ⟨[⟨"docs", []⟩]⟩, ["docs"]⟩ "docs" [(1 : Rat), 2] 5
      = (⟨"db", some ⟨[⟨"docs", []⟩]⟩, ["docs"]⟩,
          Except.error (PyErr.attributeError "_get_collection")) :=
  search_similar_always_raises ⟨"db", some ⟨[⟨"docs", []⟩]⟩, ["docs"]⟩
    ⟨[⟨"docs", []⟩]⟩ rfl "docs" [(1 : Rat), 2] 5

/-- C6 (code bug): an `add_to_collection` call with mismatched parallel
sequence lengths does fail and does leave the collection's record count
unchanged — but with `AttributeError` from the undefined `_get_collection`,
not with a validation error: the repository code performs no length
validation at all (every call fails the same way whatever the lengths). -/
theorem add_mismatched_lengths_not_validated (s : ChromaConnector)
    (c : ChromaClient) (hc : s.client = some c) (name : String)
    (chunks : List String) (embeddings : List (List Rat))
    (metadata : List Metadata)
    (hlen : chunks.length ≠ embeddings.length) :
    (s.add_to_collection name chunks embeddings metadata
      = (s, Except.error (PyErr.attributeError "_get_collection")))
    ∧ ((s.add_to_collection name chunks embeddings metadata).1.recordCount
        name = s.recordCount name) := by
  have h := add_to_collection_always_raises s c hc name chunks embeddings
    metadata
  exact ⟨h, by rw [h]⟩

/-- Witness for C6: one chunk, zero embeddings. -/
theorem add_mismatched_lengths_not_validated_witness :
    (ChromaConnector.add_to_collection ⟨"db", some ⟨[]⟩, []⟩ "docs" ["t"]
        [] [[]]
      = (⟨"db", some ⟨[]⟩, []⟩,
          Except.error (PyErr.attributeError "_get_collection")))
    ∧ ((ChromaConnector.add_to_collection ⟨"db", some ⟨[]⟩, []⟩ "docs"
        ["t"] [] [[]]).1.recordCount "docs"
      = ChromaConnector.recordCount ⟨"db", some ⟨[]⟩, []⟩ "docs") :=
  add_mismatched_lengths_not_validated ⟨"db", some ⟨[]⟩, []⟩ ⟨[]⟩ rfl
    "docs" ["t"] [] [[]] (by decide)

/-- C7: `create_collection` is idempotent — on a connected store whose
engine has no duplicate collection names, two consecutive calls with the
same name both succeed, the second call does not modify the store, and
afterwards exactly one collection of that name exists. -/
theorem create_collection_idempotent (s : ChromaConnector)
    (c : ChromaClient) (name : String) (hc : s.client = some c)
    (hnd : c.list_collections.Nodup) :
    ((s.create_collection name).2 = Except.ok ())
    ∧ (((s.create_collection name).1.create_collection name).2
      = Except.ok ())
    ∧ (((s.create_collection name).1.create_collection name).1
      = (s.create_collection name).1)
    ∧ ((s.create_collection name).1.collectionNames.count name = 1) := by
  by_cases hmem : name ∈ c.list_collections
  · have hr : s.create_collection name = (s, Except.ok ()) := by
      unfold ChromaConnector.create_collection
      rw [hc]
      simp [hmem]
    rw [hr]
    refine ⟨rfl, ?_, ?_, ?_⟩
    · unfold ChromaConnector.create_collection
      rw [hc]
      simp [hmem]
    · unfold ChromaConnector.create_collection
      rw [hc]
      simp [hmem]
    · simp only [ChromaConnector.collectionNames, hc]
      exact List.count_eq_one_of_mem hnd hmem
  · have hr : s.create_collection name
        = (⟨s.persist_directory, some ⟨c.collections ++ [⟨name, []⟩]⟩,
            s.collections ++ [name]⟩, Except.ok ()) := by
      unfold ChromaConnector.create_collection ChromaClient.create_collection
      rw [hc]
      simp [hmem]
    have hmem2 : name ∈ (ChromaClient.mk
        (c.collections ++ [⟨name, []⟩])).list_collections := by
      simp [ChromaClient.list_collections]
    rw [hr]
    refine ⟨rfl, ?_, ?_, ?_⟩
    · unfold ChromaConnector.create_collection
      simp [hmem2]
    · unfold ChromaConnector.create_collection
      simp [hmem2]
    · simp only [ChromaConnector.collectionNames]
      have hnames : (ChromaClient.mk
          (c.collections ++ [⟨name, []⟩])).list_collections
          = c.list_collections ++ [name] := by
        simp [ChromaClient.list_collections]
      rw [hnames, List.count_append]
      rw [List.count_eq_zero_of_not_mem hmem]
      simp

/-- Witness for C7 on a concrete connected store with an empty engine. -/
theorem create_collection_idempotent_witness :
    ((ChromaConnector.create_collection ⟨"db", some ⟨[]⟩, []⟩ "x").2
      = Except.ok ())
    ∧ (((ChromaConnector.create_collection ⟨"db", some ⟨[]⟩, []⟩
          "x").1.create_collection "x").2 = Except.ok ())
    ∧ (((ChromaConnector.create_collection ⟨"db", some ⟨[]⟩, []⟩
          "x").1.create_collection "x").1
      = (ChromaConnector.create_collection ⟨"db", some ⟨[]⟩, []⟩ "x").1)
    ∧ ((ChromaConnector.create_collection ⟨"db", some ⟨[]⟩,
          []⟩ "x").1.collectionNames.count "x" = 1) :=
  create_collection_idempotent ⟨"db", some ⟨[]⟩, []⟩ ⟨[]⟩ "x" rfl (by simp
    [ChromaClient.list_collections])

/-- C8: every store operation invoked while no client handle is installed
(before `connect`, or after `disconnect`, which clears the handle) fails
with the not-connected error and leaves the store state untouched. -/
theorem ops_require_connection (s t : ChromaConnector)
    (h : s.client = none) (name : String) (chunks : List String)
    (embeddings : List (List Rat)) (metadata : List Metadata)
    (q : List Rat) (k : Nat) :
    (s.create_collection name = (s, Except.error PyErr.notConnected))
    ∧ (s.drop_collection name = (s, Except.error PyErr.notConnected))
    ∧ (s.list_collections = (s, Except.error PyErr.notConnected))
    ∧ (s.add_to_collection name chunks embeddings metadata
      = (s, Except.error PyErr.notConnected))
    ∧ (s.search_similar name q k = (s, Except.error PyErr.notConnected))
    ∧ (t.disconnect.client = none) := by
  unfold ChromaConnector.create_collection ChromaConnector.drop_collection
    ChromaConnector.list_collections ChromaConnector.add_to_collection
    ChromaConnector.search_similar ChromaConnector.disconnect
  rw [h]
  exact ⟨rfl, rfl, rfl, rfl, rfl, rfl⟩

/-- Witness for C8 on a freshly constructed (never connected) store. -/
theorem ops_require_connection_witness :
    ((ChromaConnector.make "db").create_collection "x"
      = (ChromaConnector.make "db", Except.error PyErr.notConnected))
    ∧ ((ChromaConnector.make "db").drop_collection "x"
      = (ChromaConnector.make "db", Except.error PyErr.notConnected))
    ∧ ((ChromaConnector.make "db").list_collections
      = (ChromaConnector.make "db", Except.error PyErr.notConnected))
    ∧ ((ChromaConnector.make "db").add_to_collection "x" ["t"] [[(1 : Rat)]]
        [[]] = (ChromaConnector.make "db", Except.error PyErr.notConnected))
    ∧ ((ChromaConnector.make "db").search_similar "x" [(1 : Rat)] 5
      = (ChromaConnector.make "db", Except.error PyErr.notConnected))
    ∧ ((ChromaConnector.disconnect ⟨"db", some ⟨[]⟩, ["x"]⟩).client = none) :=
  ops_require_connection (ChromaConnector.make "db")
    ⟨"db", some ⟨[]⟩, ["x"]⟩ rfl "x" ["t"] [[(1 : Rat)]] [[]] [(1 : Rat)] 5

end RAGPipeline
